import Mathlib

/-!
Verification of the SellBuddy weighted multi-factor scoring pattern.

The repository instantiates one scoring pattern several times
(`ProductScore` in `bots/product_research_bot.py`, `InfluencerScore` in
`bots/influencer_bot.py`, `SupplierScore` in `bots/supplier_bot.py`,
`FraudAssessment` in `bots/order_handler_bot.py`).  Python floats are
embedded as exact rationals (`ℚ`); `math.sqrt` is embedded relationally
(a value `s ≥ 0` with `s ^ 2` equal to the population variance).
-/

namespace SellBuddy

/-! ### Generic weighted-factor scoring (the `WeightedFactorScorer` of the spec) -/

/-- A factor set: an ordered mapping from factor name to rational value. -/
abbrev FactorSet := List (String × ℚ)

/-- A weight table: an ordered mapping from factor name to weight. -/
abbrev WeightTable := List (String × ℚ)

/-- Look a factor up in a factor set; a missing factor reads as `0`
(the Python dataclass field default). -/
def fget (f : FactorSet) (n : String) : ℚ :=
  match f with
  | [] => 0
  | p :: rest => if p.1 = n then p.2 else fget rest n

/-- Composite total: sum over weight-table entries of factor value times
weight, mirroring `sum(getattr(self, factor) * weight for factor, weight
in self.WEIGHTS.items())`. -/
def totalOf (w : WeightTable) (f : FactorSet) : ℚ :=
  (w.map (fun q => fget f q.1 * q.2)).sum

/-- The raw factor values read off in weight-table order, mirroring
`scores = [getattr(self, f) for f in self.WEIGHTS.keys()]`. -/
def rawValues (w : WeightTable) (f : FactorSet) : List ℚ :=
  w.map (fun q => fget f q.1)

/-- Arithmetic mean of a list, mirroring `sum(scores) / len(scores)`. -/
def popMean (xs : List ℚ) : ℚ := xs.sum / xs.length

/-- Population variance, mirroring
`sum((s - mean) ** 2 for s in scores) / len(scores)`. -/
def popVar (xs : List ℚ) : ℚ :=
  ((xs.map (fun s => (s - popMean xs) ^ 2)).sum) / xs.length

/-- `s` is the population standard deviation of `xs`: the nonnegative
square root of the population variance (relational embedding of
`math.sqrt(variance)`). -/
def IsStdDev (xs : List ℚ) (s : ℚ) : Prop := 0 ≤ s ∧ s ^ 2 = popVar xs

/-- The clamp applied to the confidence, mirroring
`max(0, min(100, 100 - std_dev))`. -/
def clampConf (s : ℚ) : ℚ := max 0 (min 100 (100 - s))

/-- `c` is the confidence of the value list `xs`:
`c = max(0, min(100, 100 - std_dev))` for the standard deviation of `xs`. -/
def IsConfidence (xs : List ℚ) (c : ℚ) : Prop :=
  ∃ s, IsStdDev xs s ∧ c = clampConf s

/-- Grade assignment: walk the threshold list from the front (highest
minimum first) and return the label of the first threshold whose minimum
is `≤ t`; fall back to `fb` when no threshold fires. -/
def gradeOf (ts : List (ℚ × String)) (fb : String) (t : ℚ) : String :=
  match ts with
  | [] => fb
  | (m, l) :: rest => if m ≤ t then l else gradeOf rest fb t

/-- The threshold minimums are strictly decreasing down the list. -/
def descMins : List (ℚ × String) → Bool
  | [] => true
  | [_] => true
  | a :: b :: rest => (decide (b.1 < a.1)) && descMins (b :: rest)

/-- Some weight in the table is negative. -/
def hasNegWeight (w : WeightTable) : Bool :=
  w.any (fun p => decide (p.2 < 0))

/-- Modelled from the spec: the `ConfigurationError` raised at scorer
construction.  No generic `WeightedFactorScorer` exists under `src/`;
the spec (§4.1, §7) is the authority for this error kind. -/
structure ConfigurationError where
  msg : String

/-- Modelled from the spec: the generic scorer holding an immutable
weight table, grade thresholds and the reserved lowest label. -/
structure Scorer where
  weights : WeightTable
  thresholds : List (ℚ × String)
  fallbackLabel : String

/-- Modelled from the spec: construction fails with `ConfigurationError`
iff the weight table is empty or has a negative weight, or the grade
thresholds are empty or not monotonically ordered (§4.1). -/
def mkScorer (w : WeightTable) (ts : List (ℚ × String)) (fb : String) :
    Except ConfigurationError Scorer :=
  if w.isEmpty || hasNegWeight w then
    .error ⟨"invalid weight table"⟩
  else if ts.isEmpty || !descMins ts then
    .error ⟨"invalid grade thresholds"⟩
  else
    .ok ⟨w, ts, fb⟩

/-- The output of a scoring call: composite total, assigned grade, and
the original factors for auditability. -/
structure ScoreResult where
  total : ℚ
  grade : String
  factors : FactorSet

/-- Modelled from the spec: `score(factors)`, a total function of the
fixed scorer configuration and its input (§4.1: no error conditions
beyond construction-time validation). -/
def scoreOf (sc : Scorer) (f : FactorSet) : ScoreResult :=
  ⟨totalOf sc.weights f,
   gradeOf sc.thresholds sc.fallbackLabel (totalOf sc.weights f),
   f⟩

/-! ### ProductScore (`bots/product_research_bot.py`, lines 58-128) -/

/-- The twelve factor fields of `ProductScore`, all defaulting to `0.0`. -/
structure ProductScore where
  trend_score : ℚ := 0
  viral_potential : ℚ := 0
  margin_score : ℚ := 0
  competition_score : ℚ := 0
  demand_score : ℚ := 0
  sentiment_score : ℚ := 0
  seasonality_score : ℚ := 0
  price_point_score : ℚ := 0
  supplier_score : ℚ := 0
  shipping_score : ℚ := 0
  return_risk : ℚ := 0
  repeat_potential : ℚ := 0

/-- `ProductScore.WEIGHTS`, in source order. -/
def productWeights : WeightTable :=
  [("trend_score", 18/100), ("viral_potential", 16/100),
   ("margin_score", 14/100), ("competition_score", 12/100),
   ("demand_score", 10/100), ("sentiment_score", 8/100),
   ("seasonality_score", 6/100), ("price_point_score", 5/100),
   ("supplier_score", 4/100), ("shipping_score", 3/100),
   ("return_risk", 2/100), ("repeat_potential", 2/100)]

/-- `getattr(self, name)` on a `ProductScore` for the names the weight
table uses. -/
def productFactor (p : ProductScore) : String → ℚ
  | "trend_score" => p.trend_score
  | "viral_potential" => p.viral_potential
  | "margin_score" => p.margin_score
  | "competition_score" => p.competition_score
  | "demand_score" => p.demand_score
  | "sentiment_score" => p.sentiment_score
  | "seasonality_score" => p.seasonality_score
  | "price_point_score" => p.price_point_score
  | "supplier_score" => p.supplier_score
  | "shipping_score" => p.shipping_score
  | "return_risk" => p.return_risk
  | "repeat_potential" => p.repeat_potential
  | _ => 0

/-- `ProductScore.total`: the weighted sum over `WEIGHTS.items()`. -/
def productTotal (p : ProductScore) : ℚ :=
  (productWeights.map (fun q => productFactor p q.1 * q.2)).sum

/-- The list `[getattr(self, f) for f in self.WEIGHTS.keys()]` used by
`ProductScore.confidence`. -/
def productRawValues (p : ProductScore) : List ℚ :=
  productWeights.map (fun q => productFactor p q.1)

/-- `ProductScore.confidence`: `max(0, min(100, 100 - std_dev))` over the
raw factor values (relational because of `math.sqrt`). -/
def productConfidence (p : ProductScore) (c : ℚ) : Prop :=
  IsConfidence (productRawValues p) c

/-- `ProductScore._get_grade`: the literal threshold chain of the source. -/
def productGetGrade (p : ProductScore) : String :=
  let score := productTotal p
  if score ≥ 85 then "A+"
  else if score ≥ 80 then "A"
  else if score ≥ 75 then "B+"
  else if score ≥ 70 then "B"
  else if score ≥ 65 then "C+"
  else if score ≥ 60 then "C"
  else if score ≥ 50 then "D"
  else "F"

/-- The fields of a `ProductScore` as a named factor set, in weight-table
order. -/
def productFactorSet (p : ProductScore) : FactorSet :=
  [("trend_score", p.trend_score), ("viral_potential", p.viral_potential),
   ("margin_score", p.margin_score), ("competition_score", p.competition_score),
   ("demand_score", p.demand_score), ("sentiment_score", p.sentiment_score),
   ("seasonality_score", p.seasonality_score), ("price_point_score", p.price_point_score),
   ("supplier_score", p.supplier_score), ("shipping_score", p.shipping_score),
   ("return_risk", p.return_risk), ("repeat_potential", p.repeat_potential)]

/-! ### InfluencerScore (`bots/influencer_bot.py`, lines 70-104) -/

/-- The six factor fields of `InfluencerScore`, all defaulting to `0.0`. -/
structure InfluencerScore where
  engagement_rate : ℚ := 0
  authenticity : ℚ := 0
  niche_relevance : ℚ := 0
  content_quality : ℚ := 0
  audience_match : ℚ := 0
  growth_rate : ℚ := 0

/-- `InfluencerScore.WEIGHTS`, in source order. -/
def influencerWeights : WeightTable :=
  [("engagement_rate", 25/100), ("authenticity", 20/100),
   ("niche_relevance", 20/100), ("content_quality", 15/100),
   ("audience_match", 12/100), ("growth_rate", 8/100)]

/-- `getattr(self, name)` on an `InfluencerScore`. -/
def influencerFactor (i : InfluencerScore) : String → ℚ
  | "engagement_rate" => i.engagement_rate
  | "authenticity" => i.authenticity
  | "niche_relevance" => i.niche_relevance
  | "content_quality" => i.content_quality
  | "audience_match" => i.audience_match
  | "growth_rate" => i.growth_rate
  | _ => 0

/-- `InfluencerScore.total`. -/
def influencerTotal (i : InfluencerScore) : ℚ :=
  (influencerWeights.map (fun q => influencerFactor i q.1 * q.2)).sum

/-- `InfluencerScore.grade`: the literal threshold chain of the source. -/
def influencerGrade (i : InfluencerScore) : String :=
  let score := influencerTotal i
  if score ≥ 85 then "A"
  else if score ≥ 75 then "B"
  else if score ≥ 65 then "C"
  else if score ≥ 55 then "D"
  else "F"

/-- The fields of an `InfluencerScore` as a named factor set. -/
def influencerFactorSet (i : InfluencerScore) : FactorSet :=
  [("engagement_rate", i.engagement_rate), ("authenticity", i.authenticity),
   ("niche_relevance", i.niche_relevance), ("content_quality", i.content_quality),
   ("audience_match", i.audience_match), ("growth_rate", i.growth_rate)]

/-! ### SupplierScore (`bots/supplier_bot.py`, lines 98-129) -/

/-- The six factor fields of `SupplierScore`, all defaulting to `0.0`. -/
structure SupplierScore where
  reliability : ℚ := 0
  shipping_speed : ℚ := 0
  quality : ℚ := 0
  communication : ℚ := 0
  pricing : ℚ := 0
  return_rate : ℚ := 0

/-- `SupplierScore.WEIGHTS`, in source order. -/
def supplierWeights : WeightTable :=
  [("reliability", 25/100), ("shipping_speed", 20/100),
   ("quality", 20/100), ("pricing", 15/100),
   ("communication", 10/100), ("return_rate", 10/100)]

/-- The `scores` dictionary built in `SupplierScore.total`: every field
raw except `return_rate`, replaced by `max(0, 100 - self.return_rate * 10)`. -/
def supplierScores (s : SupplierScore) : String → ℚ
  | "reliability" => s.reliability
  | "shipping_speed" => s.shipping_speed
  | "quality" => s.quality
  | "pricing" => s.pricing
  | "communication" => s.communication
  | "return_rate" => max 0 (100 - s.return_rate * 10)
  | _ => 0

/-- `SupplierScore.total`: `sum(scores[k] * v for k, v in WEIGHTS.items())`
with the inverted return rate. -/
def supplierTotal (s : SupplierScore) : ℚ :=
  (supplierWeights.map (fun q => supplierScores s q.1 * q.2)).sum

/-- The raw fields of a `SupplierScore` as a named factor set (no
inversion applied). -/
def supplierFactorSet (s : SupplierScore) : FactorSet :=
  [("reliability", s.reliability), ("shipping_speed", s.shipping_speed),
   ("quality", s.quality), ("pricing", s.pricing),
   ("communication", s.communication), ("return_rate", s.return_rate)]

/-- The factor set `SupplierScore.total` actually weights: raw fields
with `return_rate` replaced by `max(0, 100 - return_rate * 10)`. -/
def supplierAdjustedFactorSet (s : SupplierScore) : FactorSet :=
  [("reliability", s.reliability), ("shipping_speed", s.shipping_speed),
   ("quality", s.quality), ("pricing", s.pricing),
   ("communication", s.communication),
   ("return_rate", max 0 (100 - s.return_rate * 10))]

/-! ### ViralScore (`bots/viral_marketing_bot.py`, lines 70-91) -/

/-- The six factor fields of `ViralScore`, all defaulting to `0.0`. -/
structure ViralScore where
  hook_strength : ℚ := 0
  emotional_trigger : ℚ := 0
  shareability : ℚ := 0
  platform_fit : ℚ := 0
  trend_alignment : ℚ := 0
  cta_effectiveness : ℚ := 0

/-- `ViralScore.WEIGHTS`, in source order. -/
def viralWeights : WeightTable :=
  [("hook_strength", 25/100), ("emotional_trigger", 20/100),
   ("shareability", 20/100), ("platform_fit", 15/100),
   ("trend_alignment", 12/100), ("cta_effectiveness", 8/100)]

/-- `getattr(self, name)` on a `ViralScore`. -/
def viralFactor (v : ViralScore) : String → ℚ
  | "hook_strength" => v.hook_strength
  | "emotional_trigger" => v.emotional_trigger
  | "shareability" => v.shareability
  | "platform_fit" => v.platform_fit
  | "trend_alignment" => v.trend_alignment
  | "cta_effectiveness" => v.cta_effectiveness
  | _ => 0

/-- `ViralScore.total`: the untransformed weighted sum over
`WEIGHTS.items()`. -/
def viralTotal (v : ViralScore) : ℚ :=
  (viralWeights.map (fun q => viralFactor v q.1 * q.2)).sum

/-- The fields of a `ViralScore` as a named factor set. -/
def viralFactorSet (v : ViralScore) : FactorSet :=
  [("hook_strength", v.hook_strength), ("emotional_trigger", v.emotional_trigger),
   ("shareability", v.shareability), ("platform_fit", v.platform_fit),
   ("trend_alignment", v.trend_alignment), ("cta_effectiveness", v.cta_effectiveness)]

/-! ### ImageQualityScore (`bots/image_fetcher_bot.py`, lines 133-174) -/

/-- The seven factor fields of `ImageQualityScore`, all defaulting to
`0.0`. -/
structure ImageQualityScore where
  resolution_score : ℚ := 0
  aspect_ratio_score : ℚ := 0
  brightness_score : ℚ := 0
  color_score : ℚ := 0
  source_reliability : ℚ := 0
  relevance_score : ℚ := 0
  style_match : ℚ := 0

/-- `ImageQualityScore.WEIGHTS`, in source order. -/
def imageWeights : WeightTable :=
  [("resolution_score", 20/100), ("aspect_ratio_score", 15/100),
   ("brightness_score", 10/100), ("color_score", 15/100),
   ("source_reliability", 15/100), ("relevance_score", 15/100),
   ("style_match", 10/100)]

/-- `getattr(self, name)` on an `ImageQualityScore`. -/
def imageFactor (g : ImageQualityScore) : String → ℚ
  | "resolution_score" => g.resolution_score
  | "aspect_ratio_score" => g.aspect_ratio_score
  | "brightness_score" => g.brightness_score
  | "color_score" => g.color_score
  | "source_reliability" => g.source_reliability
  | "relevance_score" => g.relevance_score
  | "style_match" => g.style_match
  | _ => 0

/-- `ImageQualityScore.total`: the untransformed weighted sum over
`WEIGHTS.items()`. -/
def imageTotal (g : ImageQualityScore) : ℚ :=
  (imageWeights.map (fun q => imageFactor g q.1 * q.2)).sum

/-- The fields of an `ImageQualityScore` as a named factor set. -/
def imageFactorSet (g : ImageQualityScore) : FactorSet :=
  [("resolution_score", g.resolution_score),
   ("aspect_ratio_score", g.aspect_ratio_score),
   ("brightness_score", g.brightness_score), ("color_score", g.color_score),
   ("source_reliability", g.source_reliability),
   ("relevance_score", g.relevance_score), ("style_match", g.style_match)]

/-! ### The controller ProductScore (`bots/autonomous_controller.py`,
lines 79-112); the source class is also named `ProductScore`, renamed
here because Lean forbids two structures of one name in a namespace. -/

/-- The seven factor fields of the controller `ProductScore`, all
defaulting to `0`. -/
structure ControllerProductScore where
  trend_score : ℚ := 0
  margin_score : ℚ := 0
  competition_score : ℚ := 0
  viral_potential : ℚ := 0
  demand_forecast : ℚ := 0
  sentiment_score : ℚ := 0
  seasonality_score : ℚ := 0

/-- The controller `ProductScore.WEIGHTS`, in source order. -/
def ctrlWeights : WeightTable :=
  [("trend_score", 22/100), ("margin_score", 18/100),
   ("competition_score", 12/100), ("viral_potential", 20/100),
   ("demand_forecast", 15/100), ("sentiment_score", 8/100),
   ("seasonality_score", 5/100)]

/-- `getattr(self, name)` on a controller `ProductScore`. -/
def ctrlFactor (c : ControllerProductScore) : String → ℚ
  | "trend_score" => c.trend_score
  | "margin_score" => c.margin_score
  | "competition_score" => c.competition_score
  | "viral_potential" => c.viral_potential
  | "demand_forecast" => c.demand_forecast
  | "sentiment_score" => c.sentiment_score
  | "seasonality_score" => c.seasonality_score
  | _ => 0

/-- The controller `ProductScore.total`: the untransformed weighted sum
over `WEIGHTS.items()`. -/
def ctrlTotal (c : ControllerProductScore) : ℚ :=
  (ctrlWeights.map (fun q => ctrlFactor c q.1 * q.2)).sum

/-- The fields of a controller `ProductScore` as a named factor set. -/
def ctrlFactorSet (c : ControllerProductScore) : FactorSet :=
  [("trend_score", c.trend_score), ("margin_score", c.margin_score),
   ("competition_score", c.competition_score),
   ("viral_potential", c.viral_potential),
   ("demand_forecast", c.demand_forecast),
   ("sentiment_score", c.sentiment_score),
   ("seasonality_score", c.seasonality_score)]

/-! ### FraudAssessment (`bots/order_handler_bot.py`, lines 96-145) -/

/-- `RiskLevel` enum. -/
inductive RiskLevel where
  | low
  | medium
  | high
  | critical
deriving DecidableEq

/-- `FraudSignal` dataclass. -/
structure FraudSignal where
  name : String
  score : ℚ
  weight : ℚ
  details : String

/-- `FraudSignal.weighted_score`. -/
def weightedScore (s : FraudSignal) : ℚ := s.score * s.weight

/-- `FraudAssessment` dataclass state. -/
structure FraudAssessment where
  orderId : String
  totalScore : ℚ := 0
  riskLevel : RiskLevel := .low
  signals : List FraudSignal := []
  recommendation : String := ""
  autoApprove : Bool := false
  requiresReview : Bool := false
  email_risk : ℚ := 0
  address_risk : ℚ := 0
  velocity_risk : ℚ := 0
  amount_risk : ℚ := 0
  device_risk : ℚ := 0
  behavioral_risk : ℚ := 0

/-- A fresh `FraudAssessment` with the dataclass defaults. -/
def initialAssessment (oid : String) : FraudAssessment :=
  { orderId := oid }

/-- `FraudAssessment._update_risk_level`: note the low branch is the only
place `auto_approve` is assigned, and the two review branches are the
only places `requires_review` is assigned. -/
def updateRiskLevel (a : FraudAssessment) : FraudAssessment :=
  if a.totalScore ≥ 70 then
    { a with
      riskLevel := if a.totalScore ≥ 85 then .critical else .high,
      requiresReview := true,
      recommendation := "MANUAL REVIEW REQUIRED - High fraud risk detected" }
  else if a.totalScore ≥ 40 then
    { a with
      riskLevel := .medium,
      requiresReview := true,
      recommendation := "Additional verification recommended" }
  else
    { a with
      riskLevel := .low,
      autoApprove := decide (a.totalScore ≤ 20),
      recommendation := "Low risk - Safe to process" }

/-- `FraudAssessment.add_signal`: append the signal, recompute the total
as the sum of weighted scores, then update the risk level. -/
def addSignal (a : FraudAssessment) (s : FraudSignal) : FraudAssessment :=
  let a1 := { a with signals := a.signals ++ [s] }
  let a2 := { a1 with totalScore := (a1.signals.map weightedScore).sum }
  updateRiskLevel a2

/-- A sequence of `add_signal` calls. -/
def runSignals (a : FraudAssessment) (l : List FraudSignal) : FraudAssessment :=
  l.foldl addSignal a

/-! ### Concrete instances used by witnesses and counterexamples -/

/-- A `ProductScore` with every factor set to the same value `x`. -/
def productAll (x : ℚ) : ProductScore :=
  { trend_score := x, viral_potential := x, margin_score := x,
    competition_score := x, demand_score := x, sentiment_score := x,
    seasonality_score := x, price_point_score := x, supplier_score := x,
    shipping_score := x, return_risk := x, repeat_potential := x }

/-- An `InfluencerScore` with every factor set to the same value `x`. -/
def influencerAll (x : ℚ) : InfluencerScore :=
  { engagement_rate := x, authenticity := x, niche_relevance := x,
    content_quality := x, audience_match := x, growth_rate := x }

/-- The fraud assessment reached from a fresh assessment by two
`add_signal` calls with scores `10` and `50` at weight `1`. -/
def fraudRun : FraudAssessment :=
  runSignals (initialAssessment "order-1")
    [⟨"ip_velocity", 10, 1, "3 orders this hour"⟩,
     ⟨"amount", 50, 1, "unusually large order"⟩]

/-! ### Helper lemmas -/

/-- A nonnegative rational is determined by its square. -/
lemma nonneg_sq_eq {a b : ℚ} (ha : 0 ≤ a) (hb : 0 ≤ b) (h : a ^ 2 = b ^ 2) :
    a = b := by
  have hfac : (a - b) * (a + b) = 0 := by linear_combination h
  rcases mul_eq_zero.mp hfac with h1 | h2
  · linarith
  · linarith

/-- The confidence clamp is antitone in the standard deviation. -/
lemma clampConf_anti {s t : ℚ} (h : s ≤ t) : clampConf t ≤ clampConf s :=
  max_le_max le_rfl (min_le_min le_rfl (by linarith))

/-- Any confidence of a value list is the clamp of its standard
deviation. -/
lemma isConfidence_eq {xs : List ℚ} {s c : ℚ} (hs : IsStdDev xs s)
    (hc : IsConfidence xs c) : c = clampConf s := by
  obtain ⟨t, ⟨ht0, htsq⟩, rfl⟩ := hc
  rw [nonneg_sq_eq ht0 hs.1 (htsq.trans hs.2.symm)]

/-- Appending an explicit zero entry never changes a lookup: either the
name was present (the first match is unchanged) or it was absent (the
default is `0` anyway). -/
lemma fget_append_zero (f : FactorSet) (n m : String) :
    fget (f ++ [(n, 0)]) m = fget f m := by
  induction f with
  | nil =>
    by_cases h : n = m <;> simp [fget, h]
  | cons p rest ih =>
    by_cases h : p.1 = m <;> simp [fget, h, ih]

/-- The composite total reads only the factors named in the weight
table. -/
lemma totalOf_congr {w : WeightTable} {f1 f2 : FactorSet}
    (h : ∀ n ∈ w.map Prod.fst, fget f1 n = fget f2 n) :
    totalOf w f1 = totalOf w f2 := by
  induction w with
  | nil => rfl
  | cons q rest ih =>
    simp only [totalOf, List.map_cons, List.sum_cons] at *
    rw [h q.1 (.head _), ih (fun n hn => h n (.tail _ hn))]

/-- The raw value list reads only the factors named in the weight
table. -/
lemma rawValues_congr {w : WeightTable} {f1 f2 : FactorSet}
    (h : ∀ n ∈ w.map Prod.fst, fget f1 n = fget f2 n) :
    rawValues w f1 = rawValues w f2 := by
  induction w with
  | nil => rfl
  | cons q rest ih =>
    simp only [rawValues, List.map_cons] at *
    rw [h q.1 (.head _), ih (fun n hn => h n (.tail _ hn))]

/-- When every named factor reads as `100`, the total is `100` times the
sum of the weights. -/
lemma totalOf_all_100 {w : WeightTable} {f : FactorSet}
    (h : ∀ n ∈ w.map Prod.fst, fget f n = 100) :
    totalOf w f = 100 * (w.map Prod.snd).sum := by
  induction w with
  | nil => simp [totalOf]
  | cons q rest ih =>
    simp only [totalOf, List.map_cons, List.sum_cons] at *
    rw [h q.1 (.head _), ih (fun n hn => h n (.tail _ hn))]
    ring

/-- Every entry after the head of a strictly descending threshold list
has a smaller minimum than the head. -/
lemma descMins_mem_lt {a : ℚ × String} {rest : List (ℚ × String)}
    (hd : descMins (a :: rest) = true) {q : ℚ × String} (hq : q ∈ rest) :
    q.1 < a.1 := by
  induction rest generalizing a with
  | nil => cases hq
  | cons b t ih =>
    simp only [descMins, Bool.and_eq_true, decide_eq_true_eq] at hd
    cases hq with
    | head => exact hd.1
    | tail _ hq => exact lt_trans (ih hd.2 hq) hd.1

/-- The tail of a strictly descending threshold list is strictly
descending. -/
lemma descMins_tail {a : ℚ × String} {rest : List (ℚ × String)}
    (hd : descMins (a :: rest) = true) : descMins rest = true := by
  cases rest with
  | nil => rfl
  | cons b t =>
    simp only [descMins, Bool.and_eq_true] at hd
    exact hd.2

/-- Walking a strictly descending threshold list at a total exactly equal
to the minimum of some entry returns the label of that entry. -/
lemma gradeOf_boundary {ts : List (ℚ × String)} {fb l : String} {m : ℚ}
    (hd : descMins ts = true) (hmem : (m, l) ∈ ts) :
    gradeOf ts fb m = l := by
  induction ts with
  | nil => cases hmem
  | cons a rest ih =>
    cases hmem with
    | head => simp [gradeOf]
    | tail _ hmem =>
      have hlt : m < a.1 := descMins_mem_lt hd (q := (m, l)) hmem
      have hnle : ¬ a.1 ≤ m := not_le.mpr hlt
      obtain ⟨m0, l0⟩ := a
      simp only [gradeOf, if_neg hnle]
      exact ih (descMins_tail hd) hmem

/-- `ProductScore.total` of the all-`x` product score is `x` (the weights
sum to one). -/
lemma productTotal_all (x : ℚ) : productTotal (productAll x) = x := by
  simp [productTotal, productWeights, productFactor, productAll]
  ring

/-- `InfluencerScore.total` of the all-`x` influencer score is `x` (the
weights sum to one). -/
lemma influencerTotal_all (x : ℚ) : influencerTotal (influencerAll x) = x := by
  simp [influencerTotal, influencerWeights, influencerFactor, influencerAll]
  ring

/-! ### Claim theorems -/

/-- C1 counterexample: the claim fails for `SupplierScore`.  On a
supplier score whose only nonzero factor is `return_rate = 10`, the
composite total computed by the code is `0`, while the sum over
weight-table entries of the raw factor value times its weight is `1`. -/
theorem claim1_counterexample :
    supplierTotal { return_rate := 10 } = 0 ∧
    totalOf supplierWeights (supplierFactorSet { return_rate := 10 }) = 1 ∧
    ¬ (supplierTotal { return_rate := 10 }
        = totalOf supplierWeights (supplierFactorSet { return_rate := 10 })) := by
  refine ⟨?_, ?_, ?_⟩
  · simp [supplierTotal, supplierScores, supplierWeights]
    norm_num
  · simp [totalOf, fget, supplierWeights, supplierFactorSet]
    norm_num
  · intro h
    rw [show supplierTotal { return_rate := 10 } = 0 by
          simp [supplierTotal, supplierScores, supplierWeights]; norm_num,
        show totalOf supplierWeights (supplierFactorSet { return_rate := 10 }) = 1 by
          simp [totalOf, fget, supplierWeights, supplierFactorSet]; norm_num] at h
    exact absurd h (by norm_num)

/-- C1 amended: for every scoring class that instantiates the pattern
except `SupplierScore` — `ProductScore`, `InfluencerScore`,
`ViralScore`, `ImageQualityScore`, and the controller `ProductScore` —
the composite total equals the sum over weight-table entries of the raw
factor value times its weight, with no factor transformed, inverted or
clamped before weighting; `SupplierScore` alone first substitutes
`max(0, 100 - 10 * return_rate)` for the raw `return_rate` factor and
then weights the substituted factor set the same way. -/
theorem claim1_amended :
    (∀ p : ProductScore,
        productTotal p = totalOf productWeights (productFactorSet p)) ∧
    (∀ i : InfluencerScore,
        influencerTotal i = totalOf influencerWeights (influencerFactorSet i)) ∧
    (∀ v : ViralScore,
        viralTotal v = totalOf viralWeights (viralFactorSet v)) ∧
    (∀ g : ImageQualityScore,
        imageTotal g = totalOf imageWeights (imageFactorSet g)) ∧
    (∀ c : ControllerProductScore,
        ctrlTotal c = totalOf ctrlWeights (ctrlFactorSet c)) ∧
    (∀ s : SupplierScore,
        supplierTotal s = totalOf supplierWeights (supplierAdjustedFactorSet s) ∧
        fget (supplierAdjustedFactorSet s) "return_rate"
          = max 0 (100 - 10 * s.return_rate)) := by
  refine ⟨fun p => ?_, fun i => ?_, fun v => ?_, fun g => ?_, fun c => ?_,
    fun s => ⟨?_, ?_⟩⟩
  · simp [productTotal, totalOf, fget, productWeights, productFactorSet, productFactor]
  · simp [influencerTotal, totalOf, fget, influencerWeights, influencerFactorSet,
      influencerFactor]
  · simp [viralTotal, totalOf, fget, viralWeights, viralFactorSet, viralFactor]
  · simp [imageTotal, totalOf, fget, imageWeights, imageFactorSet, imageFactor]
  · simp [ctrlTotal, totalOf, fget, ctrlWeights, ctrlFactorSet, ctrlFactor]
  · simp [supplierTotal, totalOf, fget, supplierWeights, supplierAdjustedFactorSet,
      supplierScores]
  · simp [fget, supplierAdjustedFactorSet]
    ring_nf

/-- C10: `SupplierScore.total` weights `max(0, 100 - 10 * return_rate)`
in place of the raw return rate, so with the other factors fixed the
total is non-increasing in `return_rate`, and a supplier with return
rate `0` scores exactly `10` weighted points above one with return rate
`10` or more. -/
theorem claim10_return_rate :
    (∀ s : SupplierScore,
        supplierTotal s
          = s.reliability * (25/100) + s.shipping_speed * (20/100)
            + s.quality * (20/100) + s.pricing * (15/100)
            + s.communication * (10/100)
            + max 0 (100 - 10 * s.return_rate) * (10/100)) ∧
    (∀ (s : SupplierScore) (r1 r2 : ℚ), r1 ≤ r2 →
        supplierTotal { s with return_rate := r2 }
          ≤ supplierTotal { s with return_rate := r1 }) ∧
    (∀ (s : SupplierScore) (r : ℚ), 10 ≤ r →
        supplierTotal { s with return_rate := 0 }
          = supplierTotal { s with return_rate := r } + 10) := by
  have hform : ∀ s : SupplierScore,
      supplierTotal s
        = s.reliability * (25/100) + s.shipping_speed * (20/100)
          + s.quality * (20/100) + s.pricing * (15/100)
          + s.communication * (10/100)
          + max 0 (100 - 10 * s.return_rate) * (10/100) := by
    intro s
    have hmax : max 0 (100 - s.return_rate * 10) = max 0 (100 - 10 * s.return_rate) := by
      ring_nf
    simp [supplierTotal, supplierScores, supplierWeights, hmax]
    ring
  refine ⟨hform, fun s r1 r2 h12 => ?_, fun s r hr => ?_⟩
  · rw [hform, hform]
    have hmax : max 0 (100 - 10 * r2) ≤ max 0 (100 - 10 * r1) :=
      max_le_max le_rfl (by linarith)
    simp only
    have hterm : max 0 (100 - 10 * r2) * (10/100)
        ≤ max 0 (100 - 10 * r1) * (10/100) := by
      apply mul_le_mul_of_nonneg_right hmax
      norm_num
    linarith
  · rw [hform, hform]
    simp only
    rw [show max (0:ℚ) (100 - 10 * 0) = 100 by norm_num,
        show max (0:ℚ) (100 - 10 * r) = 0 from max_eq_left (by linarith)]
    ring

/-- C10 witness: with return rates `10 ≤ 20`, the total at return rate
`20` is at most the total at return rate `10`, and the total at return
rate `0` exceeds the total at return rate `10` by exactly `10` weighted
points. -/
theorem claim10_witness :
    supplierTotal { return_rate := 20 } ≤ supplierTotal { return_rate := 10 } ∧
    supplierTotal { return_rate := 0 } = supplierTotal { return_rate := 10 } + 10 :=
  ⟨claim10_return_rate.2.1 { return_rate := 10 } 10 20 (by norm_num),
   claim10_return_rate.2.2 { return_rate := 10 } 10 (by norm_num)⟩

/-- C5: a composite total exactly equal to the minimum of an entry of a
strictly descending threshold table is assigned the label of that entry
(the walk goes from the highest minimum downward and the first firing
threshold wins); in particular a `ProductScore` total of exactly `85` is
graded `A+` and an `InfluencerScore` total of exactly `85` is graded
`A`. -/
theorem claim5_grade_boundary :
    (∀ (ts : List (ℚ × String)) (fb l : String) (m : ℚ),
        descMins ts = true → (m, l) ∈ ts → gradeOf ts fb m = l) ∧
    (∀ p : ProductScore, productTotal p = 85 → productGetGrade p = "A+") ∧
    (∀ i : InfluencerScore, influencerTotal i = 85 → influencerGrade i = "A") := by
  refine ⟨fun ts fb l m hd hmem => gradeOf_boundary hd hmem,
    fun p hp => ?_, fun i hi => ?_⟩
  · simp [productGetGrade, hp]
  · simp [influencerGrade, hi]

/-- C5 witness: the boundary rule applied at the concrete threshold
table of the spec example, and at concrete product and influencer scores
with every factor equal to `85` (the weights sum to one, so both totals
are exactly `85`). -/
theorem claim5_witness :
    gradeOf [(90, "A"), (70, "B"), (0, "C")] "F" 70 = "B" ∧
    productGetGrade (productAll 85) = "A+" ∧
    influencerGrade (influencerAll 85) = "A" :=
  ⟨claim5_grade_boundary.1 [(90, "A"), (70, "B"), (0, "C")] "F" "B" 70
      (by norm_num [descMins]) (by simp),
   claim5_grade_boundary.2.1 (productAll 85) (productTotal_all 85),
   claim5_grade_boundary.2.2 (influencerAll 85) (influencerTotal_all 85)⟩

/-- C6: when the weights sum to `1`, a factor set in which every factor
named in the weight table reads `100` has composite total exactly `100`;
if moreover the top threshold minimum is at most `100`, the assigned
grade is the top (highest) label.  In particular a `ProductScore` with
every factor at `100` has total `100` and grade `A+`. -/
theorem claim6_max_ceiling :
    (∀ (w : WeightTable) (f : FactorSet),
        (w.map Prod.snd).sum = 1 →
        (∀ n ∈ w.map Prod.fst, fget f n = 100) →
        totalOf w f = 100) ∧
    (∀ (w : WeightTable) (f : FactorSet) (m : ℚ) (l fb : String)
        (rest : List (ℚ × String)),
        (w.map Prod.snd).sum = 1 →
        (∀ n ∈ w.map Prod.fst, fget f n = 100) →
        m ≤ 100 →
        gradeOf ((m, l) :: rest) fb (totalOf w f) = l) ∧
    (productTotal (productAll 100) = 100 ∧
      productGetGrade (productAll 100) = "A+") := by
  have htot : ∀ (w : WeightTable) (f : FactorSet),
      (w.map Prod.snd).sum = 1 →
      (∀ n ∈ w.map Prod.fst, fget f n = 100) →
      totalOf w f = 100 := by
    intro w f hsum hall
    rw [totalOf_all_100 hall, hsum, mul_one]
  refine ⟨htot, fun w f m l fb rest hsum hall hm => ?_, ?_, ?_⟩
  · rw [htot w f hsum hall]
    simp [gradeOf, hm]
  · exact productTotal_all 100
  · rw [productGetGrade, productTotal_all 100]
    norm_num

/-- C6 witness: the ceiling rule applied at the concrete one-factor
weight table `[(a, 1)]` and factor set `[(a, 100)]`, with the spec
example thresholds. -/
theorem claim6_witness :
    totalOf [("a", 1)] [("a", 100)] = 100 ∧
    gradeOf [(90, "A"), (70, "B"), (0, "C")] "F"
      (totalOf [("a", 1)] [("a", 100)]) = "A" :=
  ⟨claim6_max_ceiling.1 [("a", 1)] [("a", 100)] (by simp)
      (by intro n hn; simp at hn; simp [hn, fget]),
   claim6_max_ceiling.2.1 [("a", 1)] [("a", 100)] 90 "A" "F"
      [(70, "B"), (0, "C")] (by simp)
      (by intro n hn; simp at hn; simp [hn, fget]) (by norm_num)⟩

/-- C2: the confidence of a `ProductScore` is exactly
`clamp(100 - s, 0, 100)` where `s` is the population standard deviation
of the raw factor values over the weight-table factors (not the weighted
contributions); and for factor values `80` and `100` the confidence is
`90`. -/
theorem claim2_confidence :
    (∀ (p : ProductScore) (s c : ℚ),
        IsStdDev (productRawValues p) s →
        (productConfidence p c ↔ c = max 0 (min 100 (100 - s)))) ∧
    IsConfidence [80, 100] 90 := by
  constructor
  · intro p s c hs
    constructor
    · intro hc
      exact isConfidence_eq hs hc
    · intro hc
      exact ⟨s, hs, hc⟩
  · refine ⟨10, ⟨by norm_num, ?_⟩, by norm_num [clampConf]⟩
    norm_num [popVar, popMean]

/-- C2 witness: at the all-zero product score the standard deviation is
`0`, so the confidence relation holds exactly at `100`. -/
theorem claim2_witness : productConfidence (productAll 0) 100 := by
  have hvar : popVar (productRawValues (productAll 0)) = 0 := by
    simp [productRawValues, productWeights, productFactor, productAll]
    norm_num [popVar, popMean]
  exact (claim2_confidence.1 (productAll 0) 0 100
    ⟨le_refl 0, by rw [hvar]; norm_num⟩).mpr (by norm_num)

/-- C4: extending a factor set with an explicit `0` entry for an absent
factor name changes nothing: the composite total, the raw value list
(hence the confidence relation), and the assigned grade all coincide
with those of the original factor set. -/
theorem claim4_missing_factor :
    ∀ (w : WeightTable) (ts : List (ℚ × String)) (fb : String)
      (f : FactorSet) (n : String),
      n ∉ f.map Prod.fst →
      totalOf w (f ++ [(n, 0)]) = totalOf w f ∧
      rawValues w (f ++ [(n, 0)]) = rawValues w f ∧
      gradeOf ts fb (totalOf w (f ++ [(n, 0)])) = gradeOf ts fb (totalOf w f) ∧
      (∀ c, IsConfidence (rawValues w (f ++ [(n, 0)])) c ↔
        IsConfidence (rawValues w f) c) := by
  intro w ts fb f n _
  have hfg : ∀ m ∈ w.map Prod.fst, fget (f ++ [(n, 0)]) m = fget f m :=
    fun m _ => fget_append_zero f n m
  have ht : totalOf w (f ++ [(n, 0)]) = totalOf w f := totalOf_congr hfg
  have hr : rawValues w (f ++ [(n, 0)]) = rawValues w f := rawValues_congr hfg
  exact ⟨ht, hr, by rw [ht], fun c => by rw [hr]⟩

/-- C4 witness: adding the absent factor `b` as an explicit zero to the
one-entry factor set `[(a, 5)]` leaves the total under the weight table
`[(a, 1)]` unchanged. -/
theorem claim4_witness :
    totalOf [("a", 1)] ([("a", 5)] ++ [("b", 0)]) = totalOf [("a", 1)] [("a", 5)] :=
  (claim4_missing_factor [("a", 1)] [(0, "C")] "F" [("a", 5)] "b"
    (by simp)).1

/-- C7: over one weight table, if two factor sets have the same mean raw
factor value and the population standard deviation of the first is
strictly smaller than that of the second, then the confidence of the
first is at least the confidence of the second: the clamp to
`[0, 100]` preserves the ordering. -/
theorem claim7_confidence_monotone :
    ∀ (w : WeightTable) (A B : FactorSet) (sA sB cA cB : ℚ),
      popMean (rawValues w A) = popMean (rawValues w B) →
      IsStdDev (rawValues w A) sA →
      IsStdDev (rawValues w B) sB →
      sA < sB →
      IsConfidence (rawValues w A) cA →
      IsConfidence (rawValues w B) cB →
      cB ≤ cA := by
  intro w A B sA sB cA cB _ hsA hsB hlt hcA hcB
  rw [isConfidence_eq hsA hcA, isConfidence_eq hsB hcB]
  exact clampConf_anti (le_of_lt hlt)

/-- C7 witness: under weights `{trend: 1/2, margin: 1/2}`, the factor
sets `{trend: 80, margin: 100}` and `{trend: 70, margin: 110}` share the
mean `90`, have standard deviations `10 < 20`, and their confidences
satisfy `80 ≤ 90`. -/
theorem claim7_witness : (80 : ℚ) ≤ 90 := by
  have hA : rawValues [("trend", 1/2), ("margin", 1/2)]
      [("trend", 80), ("margin", 100)] = [80, 100] := by
    simp [rawValues, fget]
  have hB : rawValues [("trend", 1/2), ("margin", 1/2)]
      [("trend", 70), ("margin", 110)] = [70, 110] := by
    simp [rawValues, fget]
  refine claim7_confidence_monotone
    [("trend", 1/2), ("margin", 1/2)]
    [("trend", 80), ("margin", 100)] [("trend", 70), ("margin", 110)]
    10 20 90 80 ?_ ?_ ?_ (by norm_num) ?_ ?_
  · rw [hA, hB]
    norm_num [popMean]
  · rw [hA]
    exact ⟨by norm_num, by norm_num [popVar, popMean]⟩
  · rw [hB]
    exact ⟨by norm_num, by norm_num [popVar, popMean]⟩
  · rw [hA]
    exact ⟨10, ⟨by norm_num, by norm_num [popVar, popMean]⟩, by norm_num [clampConf]⟩
  · rw [hB]
    exact ⟨20, ⟨by norm_num, by norm_num [popVar, popMean]⟩, by norm_num [clampConf]⟩

/-- C8: scoring reads nothing beyond the fixed configuration and the
factors named in the weight table: two factor sets that agree on every
named factor produce identical totals, identical raw value lists,
identical grades, and the same confidence relation; in particular two
evaluations of the same input are identical. -/
theorem claim8_determinism :
    ∀ (w : WeightTable) (ts : List (ℚ × String)) (fb : String)
      (f1 f2 : FactorSet),
      (∀ n ∈ w.map Prod.fst, fget f1 n = fget f2 n) →
      totalOf w f1 = totalOf w f2 ∧
      rawValues w f1 = rawValues w f2 ∧
      gradeOf ts fb (totalOf w f1) = gradeOf ts fb (totalOf w f2) ∧
      (∀ c, IsConfidence (rawValues w f1) c ↔ IsConfidence (rawValues w f2) c) := by
  intro w ts fb f1 f2 h
  have ht : totalOf w f1 = totalOf w f2 := totalOf_congr h
  have hr : rawValues w f1 = rawValues w f2 := rawValues_congr h
  exact ⟨ht, hr, by rw [ht], fun c => by rw [hr]⟩

/-- C8 witness: the factor sets `[(a, 5)]` and `[(a, 5), (b, 7)]` agree
on the single factor `a` named by the weight table `[(a, 1)]`, so their
totals coincide. -/
theorem claim8_witness :
    totalOf [("a", 1)] [("a", 5)] = totalOf [("a", 1)] [("a", 5), ("b", 7)] :=
  (claim8_determinism [("a", 1)] [(0, "C")] "F" [("a", 5)] [("a", 5), ("b", 7)]
    (by intro n hn; simp at hn; simp [hn, fget])).1

/-- C3: constructing a scorer fails with `ConfigurationError` iff the
weight table is empty or has a negative weight, or the threshold table
is empty or not monotonically ordered; construction from an empty
weight table always errors; and after a successful construction a
scoring call is a total function fully determined by the configuration
given at construction — no error can arise. -/
theorem claim3_construction :
    (∀ (w : WeightTable) (ts : List (ℚ × String)) (fb : String),
        (∃ e, mkScorer w ts fb = .error e) ↔
          (w = [] ∨ hasNegWeight w = true ∨ ts = [] ∨ descMins ts = false)) ∧
    (∀ (ts : List (ℚ × String)) (fb : String),
        ∃ e, mkScorer [] ts fb = .error e) ∧
    (∀ (w : WeightTable) (ts : List (ℚ × String)) (fb : String) (sc : Scorer),
        mkScorer w ts fb = .ok sc →
        sc.weights = w ∧ sc.thresholds = ts ∧
        ∀ f : FactorSet,
          scoreOf sc f
            = ⟨totalOf w f, gradeOf ts fb (totalOf w f), f⟩) := by
  have hiff : ∀ (w : WeightTable) (ts : List (ℚ × String)) (fb : String),
      (∃ e, mkScorer w ts fb = .error e) ↔
        (w = [] ∨ hasNegWeight w = true ∨ ts = [] ∨ descMins ts = false) := by
    intro w ts fb
    unfold mkScorer
    split_ifs with h1 h2
    · simp only [Bool.or_eq_true, List.isEmpty_iff] at h1
      constructor
      · intro _
        rcases h1 with h | h
        · exact Or.inl h
        · exact Or.inr (Or.inl h)
      · intro _
        exact ⟨⟨"invalid weight table"⟩, rfl⟩
    · simp only [Bool.or_eq_true, Bool.not_eq_eq_eq_not, Bool.not_true,
        List.isEmpty_iff] at h2
      constructor
      · intro _
        rcases h2 with h | h
        · exact Or.inr (Or.inr (Or.inl h))
        · exact Or.inr (Or.inr (Or.inr h))
      · intro _
        exact ⟨⟨"invalid grade thresholds"⟩, rfl⟩
    · constructor
      · intro ⟨e, he⟩
        cases he
      · intro h
        rcases h with h | h | h | h
        · subst h
          simp at h1
        · simp [h] at h1
        · subst h
          simp at h2
        · simp [h] at h2
  refine ⟨hiff, fun ts fb => (hiff [] ts fb).mpr (Or.inl rfl),
    fun w ts fb sc hok => ?_⟩
  unfold mkScorer at hok
  split_ifs at hok
  cases hok
  exact ⟨rfl, rfl, fun f => rfl⟩

/-- C3 witness: the one-factor scorer built from weight table
`[(a, 1)]` and thresholds `[(0, C)]` is constructed successfully, and
its scoring call returns exactly the result determined by that
configuration. -/
theorem claim3_witness :
    scoreOf ⟨[("a", 1)], [(0, "C")], "F"⟩ [("a", 50)]
      = ⟨totalOf [("a", 1)] [("a", 50)],
         gradeOf [(0, "C")] "F" (totalOf [("a", 1)] [("a", 50)]),
         [("a", 50)]⟩ :=
  ((claim3_construction.2.2 [("a", 1)] [(0, "C")] "F"
      ⟨[("a", 1)], [(0, "C")], "F"⟩
      (by norm_num [mkScorer, hasNegWeight, descMins])).2.2) [("a", 50)]

/-- C9 counterexample: starting from a fresh assessment, the signal
sequence with scores `10` then `50` (both in `[0, 100]`, both at
nonnegative weight `1`) ends with `auto_approve` still `true` while the
total score is `60` and the risk level is `MEDIUM`: the `add_signal`
invariant claimed for `auto_approve` fails, because the low-risk branch
is the only place `auto_approve` is ever reassigned. -/
theorem claim9_counterexample :
    fraudRun.signals
      = [⟨"ip_velocity", 10, 1, "3 orders this hour"⟩,
         ⟨"amount", 50, 1, "unusually large order"⟩] ∧
    fraudRun.autoApprove = true ∧
    fraudRun.totalScore = 60 ∧
    fraudRun.riskLevel = RiskLevel.medium ∧
    ¬ (fraudRun.totalScore ≤ 20 ∧ fraudRun.riskLevel = RiskLevel.low) := by
  have h : fraudRun.autoApprove = true ∧ fraudRun.totalScore = 60 ∧
      fraudRun.riskLevel = RiskLevel.medium := by
    norm_num [fraudRun, runSignals, addSignal, updateRiskLevel,
      initialAssessment, weightedScore]
  refine ⟨?_, h.1, h.2.1, h.2.2, ?_⟩
  · norm_num [fraudRun, runSignals, addSignal, updateRiskLevel,
      initialAssessment, weightedScore]
  · intro hc
    rw [h.2.1] at hc
    exact absurd hc.1 (by norm_num)

/-- C9 amended: after every `add_signal` call (whatever the prior
state), the total score equals the sum of `score * weight` over the
accumulated signals, `requires_review` is true whenever the total is at
least `40`, and — provided the resulting total is still below `40` —
`auto_approve` is true exactly when the total is at most `20` and the
risk level is `LOW`.  Once the total reaches `40`, `auto_approve` merely
retains its previous value. -/
theorem claim9_amended :
    ∀ (a : FraudAssessment) (s : FraudSignal),
      0 ≤ s.score → s.score ≤ 100 → 0 ≤ s.weight →
      ((addSignal a s).totalScore
          = ((addSignal a s).signals.map weightedScore).sum) ∧
      (40 ≤ (addSignal a s).totalScore → (addSignal a s).requiresReview = true) ∧
      ((addSignal a s).totalScore < 40 →
        ((addSignal a s).autoApprove = true ↔ (addSignal a s).totalScore ≤ 20) ∧
        (addSignal a s).riskLevel = RiskLevel.low) := by
  intro a s _ _ _
  simp only [addSignal, updateRiskLevel]
  by_cases h70 : ((a.signals ++ [s]).map weightedScore).sum ≥ 70
  · rw [if_pos h70]
    refine ⟨rfl, fun _ => rfl, fun hlt => ?_⟩
    have hlt2 : ((a.signals ++ [s]).map weightedScore).sum < 40 := hlt
    linarith
  · rw [if_neg h70]
    by_cases h40 : ((a.signals ++ [s]).map weightedScore).sum ≥ 40
    · rw [if_pos h40]
      refine ⟨rfl, fun _ => rfl, fun hlt => ?_⟩
      have hlt2 : ((a.signals ++ [s]).map weightedScore).sum < 40 := hlt
      linarith
    · rw [if_neg h40]
      refine ⟨rfl, fun hge => ?_, fun _ => ⟨?_, rfl⟩⟩
      · have hge2 : 40 ≤ ((a.signals ++ [s]).map weightedScore).sum := hge
        exact absurd hge2 (by simpa using h40)
      · exact decide_eq_true_iff

/-- C9 amended witness: one signal of score `10` at weight `1` on a
fresh assessment leaves the total below `40`, so the low-risk clause of
the amended invariant applies and yields risk level `LOW`. -/
theorem claim9_witness :
    (addSignal (initialAssessment "order-2") ⟨"email", 10, 1, ""⟩).riskLevel
      = RiskLevel.low :=
  ((claim9_amended (initialAssessment "order-2") ⟨"email", 10, 1, ""⟩
      (by norm_num) (by norm_num) (by norm_num)).2.2
    (by norm_num [addSignal, updateRiskLevel, initialAssessment,
      weightedScore])).2

end SellBuddy
